import Mathlib

/-!
Verification of the command-execution core of a document-database client
driver.  The response-body schemas, the `Operation` trait defaults, the
`append_options` helper, the `Retryability` classification and the
synchronous cursor façade are embedded from the repository's source
(`src/operation/mod.rs`, `src/sync/cursor.rs`,
`src/test/spec/unified_runner/operation.rs`); components named by the spec
whose code is not part of the source tree (the executor retry loop, the
session transaction state machine, the asynchronous cursor) are modelled
from the spec, and each such definition says so in its doc comment.
-/

namespace MongoDriver

/-- BSON value tree, the value-tree codec the spec assumes.  Only the
constructors the embedded code manipulates are included. -/
inductive Bson where
  | int64 : Int → Bson
  | string : String → Bson
  | boolean : Bool → Bson
  | document : List (String × Bson) → Bson
  | array : List Bson → Bson
deriving Repr

/-- An ordered BSON document: key/value pairs in insertion order
(`bson::Document`). -/
abbrev Document := List (String × Bson)

/-- Look up the value stored at a key (first occurrence). -/
def Document.get (d : Document) (k : String) : Option Bson :=
  (d.find? (fun p => p.1 = k)).map Prod.snd

/-- `bson::Document::insert` semantics: replace the value at an existing key
in place, otherwise append the pair at the end. -/
def Document.insertPair (d : Document) (k : String) (v : Bson) : Document :=
  if d.any (fun p => p.1 = k) then
    d.map (fun p => if p.1 = k then (k, v) else p)
  else
    d ++ [(k, v)]

/-- `bson::Document::extend`: insert every pair of `other`, in order. -/
def Document.extendDoc (d : Document) (other : Document) : Document :=
  other.foldl (fun acc p => acc.insertPair p.1 p.2) d

/-- A cluster-wide write-concern error reported by the server
(`error::WriteConcernError`: code, code name, message). -/
structure WriteConcernError where
  code : Int
  codeName : String
  message : String
deriving Repr, DecidableEq

/-- A per-document write error inside a batch
(`error::BulkWriteError`: index into the batch, code, message). -/
structure BulkWriteError where
  index : Nat
  code : Int
  message : String
deriving Repr, DecidableEq

/-- The bundle surfaced for a partially failed bulk write
(`error::BulkWriteFailure`): the per-document errors, the write-concern
error, and the inserted-id bookkeeping map. -/
structure BulkWriteFailure where
  writeErrors : Option (List BulkWriteError)
  writeConcernError : Option WriteConcernError
  insertedIds : List (Nat × Bson)
deriving Repr

/-- `error::WriteFailure`: either a single write error or a write-concern
error. -/
inductive WriteFailure where
  | writeConcernError : WriteConcernError → WriteFailure
  | writeError : BulkWriteError → WriteFailure
deriving Repr, DecidableEq

/-- The error taxonomy of §7 of the spec, restricted to the kinds the
embedded code constructs. -/
inductive ErrorKind where
  | write : WriteFailure → ErrorKind
  | bulkWrite : BulkWriteFailure → ErrorKind
  | internal : String → ErrorKind
  | transaction : String → ErrorKind
  | network : String → ErrorKind
  | command : Int → String → ErrorKind
deriving Repr

/-- A driver error: a kind plus the server-supplied error labels, as built
by `Error::new(kind, labels)`. -/
structure Error where
  kind : ErrorKind
  labels : Option (List String)
deriving Repr

/-- `Error::new`. -/
def Error.new (kind : ErrorKind) (labels : Option (List String)) : Error :=
  ⟨kind, labels⟩

/-- The empty response body (`EmptyBody`). -/
structure EmptyBody where
deriving Repr, DecidableEq

/-- Body of a write response that can carry a write-concern error but no
per-document write errors (`WriteConcernOnlyBody`). -/
structure WriteConcernOnlyBody where
  writeConcernError : Option WriteConcernError
  labels : Option (List String)
deriving Repr, DecidableEq

/-- `WriteConcernOnlyBody::validate`: error out exactly when a
write-concern error is present, carrying the reply's labels. -/
def WriteConcernOnlyBody.validate (self : WriteConcernOnlyBody) :
    Except Error Unit :=
  match self.writeConcernError with
  | some wcError =>
      .error (Error.new (ErrorKind.write (WriteFailure.writeConcernError wcError))
        self.labels)
  | none => .ok ()

/-- Body of a write response (`WriteResponseBody<T>`): a flattened inner
body, the acknowledgment count `n`, optional per-document write errors,
an optional write-concern error, and the reply's error labels. -/
structure WriteResponseBody (T : Type) where
  body : T
  n : Nat
  writeErrors : Option (List BulkWriteError)
  writeConcernError : Option WriteConcernError
  labels : Option (List String)
deriving Repr, DecidableEq

/-- `WriteResponseBody::validate`: succeed when both error fields are
absent; otherwise surface a single bulk-write failure built from the two
fields, with a fresh (empty) inserted-ids map, carrying the reply's
labels. -/
def WriteResponseBody.validate {T : Type} (self : WriteResponseBody T) :
    Except Error Unit :=
  if self.writeErrors.isNone && self.writeConcernError.isNone then
    .ok ()
  else
    .error (Error.new
      (ErrorKind.bulkWrite
        { writeErrors := self.writeErrors
          writeConcernError := self.writeConcernError
          insertedIds := [] })
      self.labels)

/-- The retryability class of an operation (`Retryability`). -/
inductive Retryability where
  | write
  | read
  | none
deriving Repr, DecidableEq

/-- Modelled from the spec: a write concern is a durability requirement; it
is unacknowledged exactly when it requests acknowledgment from zero nodes
and does not request journaling (`WriteConcern` lives outside the provided
source tree). -/
structure WriteConcern where
  w : Option Int
  journal : Option Bool
deriving Repr, DecidableEq

/-- Modelled from the spec: `WriteConcern::is_acknowledged`. -/
def WriteConcern.isAcknowledged (wc : WriteConcern) : Bool :=
  wc.w ≠ some 0 || wc.journal = some true

/-- The `Operation` trait's default `handle_error`: re-raise the error
unchanged. -/
def Operation.handleError (O : Type) (error : Error) : Except Error O :=
  .error error

/-- The `Operation` trait's default `is_acknowledged`:
`write_concern().map(WriteConcern::is_acknowledged).unwrap_or(true)`. -/
def Operation.isAcknowledged (writeConcern : Option WriteConcern) : Bool :=
  (writeConcern.map WriteConcern.isAcknowledged).getD true

/-- `append_options`: given the result of serializing the options value
(`bson::to_bson(options)`), extend the document when the options are
present and serialized to a document, succeed unchanged when absent, and
raise an internal error (leaving the document untouched) when the
serialized value is not a document.  The mutation of the `&mut Document`
argument is modelled by returning the post-state document. -/
def append_options (doc : Document) (options : Option Bson) :
    Except Error Document :=
  match options with
  | some serialized =>
      match serialized with
      | Bson.document d => .ok (doc.extendDoc d)
      | _ => .error (Error.new
          (ErrorKind.internal "options did not serialize to a Document") Option.none)
  | none => .ok doc

/-- A namespace: database name plus collection name (`Namespace`). -/
structure Namespace where
  db : String
  coll : String
deriving Repr, DecidableEq

/-- Split a character sequence at the first dot: the part before it and the
part after it (which may itself contain dots). -/
def splitAtFirstDot : List Char → Option (List Char × List Char)
  | [] => Option.none
  | c :: rest =>
      if c = '.' then some ([], rest)
      else
        match splitAtFirstDot rest with
        | Option.none => Option.none
        | some (before, after) => some (c :: before, after)

/-- Modelled from the spec: the namespace codec (outside the provided source
tree) reads the wire string `"db.coll"`, splitting at the first dot. -/
def Namespace.fromBson : Bson → Option Namespace
  | Bson.string s =>
      match splitAtFirstDot s.toList with
      | Option.none => Option.none
      | some (db, coll) => some ⟨String.mk db, String.mk coll⟩
  | _ => Option.none

/-- The `cursor` sub-document of a cursor-bearing reply (`CursorInfo`):
server cursor id, namespace, and the first batch as an ordered sequence of
documents. -/
structure CursorInfo where
  id : Int
  ns : Namespace
  firstBatch : List Document
deriving Repr

/-- A cursor-bearing reply body (`CursorBody`): the `cursor` field. -/
structure CursorBody where
  cursor : CursorInfo
deriving Repr

/-- Decode a BSON value expected to be a document. -/
def decodeDocumentValue : Bson → Option Document
  | Bson.document d => some d
  | _ => Option.none

/-- Decode a BSON value expected to be an int64. -/
def decodeInt64 : Bson → Option Int
  | Bson.int64 n => some n
  | _ => Option.none

/-- Decode a BSON value expected to be an array of documents, preserving
order. -/
def decodeDocumentList : Bson → Option (List Document)
  | Bson.array items => items.mapM decodeDocumentValue
  | _ => Option.none

/-- The derived decoder for `CursorInfo` over the value tree: field `id` as
int64, field `ns` through the namespace codec, field `firstBatch` as an
ordered document sequence. -/
def CursorInfo.fromDoc (d : Document) : Option CursorInfo :=
  match (d.get "id").bind decodeInt64 with
  | Option.none => Option.none
  | some id =>
      match (d.get "ns").bind Namespace.fromBson with
      | Option.none => Option.none
      | some ns =>
          match (d.get "firstBatch").bind decodeDocumentList with
          | Option.none => Option.none
          | some firstBatch => some ⟨id, ns, firstBatch⟩

/-- The derived decoder for `CursorBody`: the reply must carry a `cursor`
document. -/
def CursorBody.fromDoc (d : Document) : Option CursorBody :=
  match (d.get "cursor").bind decodeDocumentValue with
  | Option.none => Option.none
  | some c =>
      match CursorInfo.fromDoc c with
      | Option.none => Option.none
      | some info => some ⟨info⟩

/-- Modelled from the spec (§4.3): the observable state of the asynchronous
cursor — the buffered batch (front element is produced next) and the server
cursor id (0 = exhausted). -/
structure CursorState where
  buffer : List Document
  id : Int
deriving Repr

/-- The cursor driver buffers the reply's first batch and cursor id. -/
def CursorState.ofInfo (info : CursorInfo) : CursorState :=
  ⟨info.firstBatch, info.id⟩

/-- A `getMore` reply: the next batch and the updated cursor id.  Modelled
from the spec (§4.3). -/
structure GetMoreReply where
  nextBatch : List Document
  id : Int
deriving Repr

/-- A cooperative computation: either complete, or suspended at a `getMore`
network round-trip (a suspension point of the cooperative model, §5). -/
inductive CursorStep (α : Type) where
  | ready : α → CursorStep α
  | suspendGetMore : CursorStep α → CursorStep α

/-- Run a cooperative computation to completion.  This is what awaiting the
future does for asynchronous callers and what `RUNTIME.block_on` does for
the synchronous façade. -/
def CursorStep.run {α : Type} : CursorStep α → α
  | .ready a => a
  | .suspendGetMore k => k.run

/-- Modelled from the spec (§4.3): the asynchronous cursor's `next()` as a
cooperative computation against the stream `oracle` of `getMore` replies the
pinned server will give.  If the batch is nonempty, pop the front; else if
the id is 0, report end-of-stream; else suspend for a `getMore`, install the
reply's batch and id, and retry.  A network error during `getMore` is
surfaced and exhausts the cursor. -/
def asyncNextFuture (oracle : List (Except Error GetMoreReply)) (s : CursorState) :
    CursorStep (Option (Except Error Document) × CursorState) :=
  match s.buffer with
  | d :: rest => .ready (some (.ok d), ⟨rest, s.id⟩)
  | [] =>
      if s.id = 0 then .ready (Option.none, ⟨[], 0⟩)
      else
        match oracle with
        | [] => .ready (Option.none, ⟨[], s.id⟩)
        | reply :: oracleRest =>
            .suspendGetMore
              (match reply with
               | .error e => .ready (some (.error e), ⟨[], 0⟩)
               | .ok r => asyncNextFuture oracleRest ⟨r.nextBatch, r.id⟩)

/-- Embedded from `src/sync/cursor.rs`: the synchronous `Iterator::next` is
`RUNTIME.block_on(self.async_cursor.next())` — run the asynchronous step to
completion. -/
def syncCursorNext (oracle : List (Except Error GetMoreReply)) (s : CursorState) :
    Option (Except Error Document) × CursorState :=
  (asyncNextFuture oracle s).run

/-- The spec's iteration contract (§4.3) written directly as a recursive
function: the specification side of the refinement comparison. -/
def specCursorNext (oracle : List (Except Error GetMoreReply)) (s : CursorState) :
    Option (Except Error Document) × CursorState :=
  match s.buffer with
  | d :: rest => (some (.ok d), ⟨rest, s.id⟩)
  | [] =>
      if s.id = 0 then (Option.none, ⟨[], 0⟩)
      else
        match oracle with
        | [] => (Option.none, ⟨[], s.id⟩)
        | .error e :: _ => (some (.error e), ⟨[], 0⟩)
        | .ok r :: oracleRest => specCursorNext oracleRest ⟨r.nextBatch, r.id⟩

/-- Modelled from the spec (§3): the transaction sub-state of a client
session. -/
inductive TransactionState where
  | none
  | starting
  | inProgress
  | committed (dataCommitted : Bool)
  | aborted
deriving Repr, DecidableEq

/-- Modelled from the spec (§3, §4.4): the session fields the transaction
state machine touches — the transaction state and the per-session
transaction number. -/
structure Session where
  txnNumber : Nat
  state : TransactionState
deriving Repr, DecidableEq

/-- The states from which `start_transaction` is legal (§3). -/
def legalStartTransaction : TransactionState → Bool
  | .none | .committed _ | .aborted => true
  | _ => false

/-- The states from which `commit_transaction` is legal (§3). -/
def legalCommitTransaction : TransactionState → Bool
  | .starting | .inProgress | .committed _ => true
  | _ => false

/-- The states from which `abort_transaction` is legal (§3). -/
def legalAbortTransaction : TransactionState → Bool
  | .starting | .inProgress => true
  | _ => false

/-- Modelled from the spec (§3): `start_transaction` is legal from
None | Committed | Aborted; it moves to Starting and allocates a new
transaction number.  An illegal transition raises a transaction error and
leaves the session unchanged. -/
def startTransaction (s : Session) : Except Error Unit × Session :=
  match s.state with
  | .none | .committed _ | .aborted =>
      (.ok (), { txnNumber := s.txnNumber + 1, state := .starting })
  | _ =>
      (.error (Error.new (ErrorKind.transaction "transaction already in progress")
        Option.none), s)

/-- Modelled from the spec (§3): `commit_transaction` is legal from
Starting | InProgress | Committed.  From Starting it is a local no-op moving
to Committed with no data committed; from InProgress it issues the
`commitTransaction` command (its outcome is `serverResult`) and moves to
Committed with data committed; from Committed it re-issues commit
idempotently.  An illegal transition raises a transaction error and leaves
the session unchanged. -/
def commitTransaction (s : Session) (serverResult : Except Error Unit) :
    Except Error Unit × Session :=
  match s.state with
  | .starting => (.ok (), { s with state := .committed false })
  | .inProgress => (serverResult, { s with state := .committed true })
  | .committed b => (serverResult, { s with state := .committed b })
  | _ =>
      (.error (Error.new (ErrorKind.transaction "no transaction started")
        Option.none), s)

/-- Modelled from the spec (§3): `abort_transaction` is legal from
Starting | InProgress only; from InProgress it issues `abortTransaction`,
whose network errors are swallowed; it moves to Aborted.  An illegal
transition raises a transaction error and leaves the session unchanged. -/
def abortTransaction (s : Session) (serverResult : Except Error Unit) :
    Except Error Unit × Session :=
  match s.state with
  | .starting => (.ok (), { s with state := .aborted })
  | .inProgress =>
      match serverResult with
      | _ => (.ok (), { s with state := .aborted })
  | _ =>
      (.error (Error.new (ErrorKind.transaction "cannot abort without a transaction")
        Option.none), s)

/-- Whether an error is a transaction error (taxonomy §7, kind 7). -/
def Error.isTransactionError (e : Error) : Bool :=
  match e.kind with
  | ErrorKind.transaction _ => true
  | _ => false

/-- Whether a result surfaces a transaction error. -/
def raisesTransactionError : Except Error Unit → Bool
  | .error e => e.isTransactionError
  | _ => false

/-- Modelled from the spec (§4.5): the commit retry loop.  `outcomes n` is
the result attempt `n` would produce; `budget` is the number of further
retries the commit deadline still allows.  Attempts continue while the error
is retryable and budget remains.  Returns the surfaced result and the index
one past the last attempt performed. -/
def commitRetryLoop {α : Type} (retryableErr : Error → Bool)
    (outcomes : Nat → Except Error α) :
    Nat → Nat → Except Error α × Nat
  | 0, i =>
      match outcomes i with
      | .ok a => (.ok a, i + 1)
      | .error e => (.error e, i + 1)
  | budget + 1, i =>
      match outcomes i with
      | .ok a => (.ok a, i + 1)
      | .error e =>
          if retryableErr e then commitRetryLoop retryableErr outcomes budget (i + 1)
          else (.error e, i + 1)

/-- Modelled from the spec (§4.5): the executor's attempt loop.  `outcomes n`
is the observable result of attempt `n` (server selection, build, send and
decode folded together); `retryableErr` is the retry classification of §4.5;
`commitBudget` is the number of further attempts the commit deadline still
allows.  A first-attempt success or a non-retryable error surfaces at once;
otherwise `commitTransaction` enters the deadline-bounded commit loop, and
every other retryable operation performs exactly one more attempt and
surfaces the retry's result.  Returns the surfaced result and the number of
attempts performed. -/
def executeOperation {α : Type} (retryability : Retryability)
    (isCommitTransaction : Bool) (retryableErr : Error → Bool)
    (commitBudget : Nat) (outcomes : Nat → Except Error α) :
    Except Error α × Nat :=
  match outcomes 0 with
  | .ok a => (.ok a, 1)
  | .error e =>
      match retryability with
      | Retryability.none => (.error e, 1)
      | _ =>
          if retryableErr e then
            if isCommitTransaction then
              commitRetryLoop retryableErr outcomes commitBudget 1
            else
              match outcomes 1 with
              | .ok a => (.ok a, 2)
              | .error retryError => (.error retryError, 2)
          else (.error e, 1)

/-- C1: for every Write response body, `validate()` succeeds iff both the
`writeErrors` list and the `writeConcernError` field are absent; whenever
either is present, `validate()` returns a single bulk-write failure error
carrying the `writeErrors` list, the `writeConcernError`, an empty
placeholder inserted-ids map, and the reply's top-level error labels. -/
theorem writeResponseBody_validate_spec {T : Type} (body : WriteResponseBody T) :
    (body.validate = .ok () ↔
      body.writeErrors = Option.none ∧ body.writeConcernError = Option.none) ∧
    ((body.writeErrors ≠ Option.none ∨ body.writeConcernError ≠ Option.none) →
      body.validate = .error (Error.new
        (ErrorKind.bulkWrite
          ⟨body.writeErrors, body.writeConcernError, []⟩) body.labels)) := by
  obtain ⟨b, n, we, wce, labels⟩ := body
  constructor
  · cases we <;> cases wce <;>
      simp [WriteResponseBody.validate, Error.new]
  · intro h
    cases we <;> cases wce <;>
      simp_all [WriteResponseBody.validate, Error.new]

/-- C1 witness: a body with one write error and no write-concern error fails
validation with exactly the bulk-write failure built from its fields. -/
theorem writeResponseBody_validate_spec_witness :
    WriteResponseBody.validate (T := EmptyBody)
      ⟨⟨⟩, 2, some [⟨1, 11000, "dup"⟩], Option.none, some ["RetryableWriteError"]⟩ =
    .error (Error.new
      (ErrorKind.bulkWrite ⟨some [⟨1, 11000, "dup"⟩], Option.none, []⟩)
      (some ["RetryableWriteError"])) :=
  (writeResponseBody_validate_spec
    (⟨⟨⟩, 2, some [⟨1, 11000, "dup"⟩], Option.none, some ["RetryableWriteError"]⟩ :
      WriteResponseBody EmptyBody)).2
    (Or.inl (by simp))

/-- C4: for every write-concern-only response body, `validate()` errors iff
a `writeConcernError` is present, and then the error is a write-concern
failure carrying exactly the reply's top-level error labels; when absent,
`validate()` succeeds. -/
theorem writeConcernOnlyBody_validate_spec (body : WriteConcernOnlyBody) :
    (body.validate = .ok () ↔ body.writeConcernError = Option.none) ∧
    (∀ wcError, body.writeConcernError = some wcError →
      body.validate = .error (Error.new
        (ErrorKind.write (WriteFailure.writeConcernError wcError))
        body.labels)) := by
  obtain ⟨wce, labels⟩ := body
  cases wce <;> simp [WriteConcernOnlyBody.validate, Error.new]

/-- C4 witness: a body with a write-concern error fails validation with a
write-concern failure carrying the reply's labels. -/
theorem writeConcernOnlyBody_validate_spec_witness :
    WriteConcernOnlyBody.validate
      ⟨some ⟨64, "WriteConcernFailed", "waiting timed out"⟩,
        some ["UnknownTransactionCommitResult"]⟩ =
    .error (Error.new
      (ErrorKind.write (WriteFailure.writeConcernError
        ⟨64, "WriteConcernFailed", "waiting timed out"⟩))
      (some ["UnknownTransactionCommitResult"])) :=
  (writeConcernOnlyBody_validate_spec
    ⟨some ⟨64, "WriteConcernFailed", "waiting timed out"⟩,
      some ["UnknownTransactionCommitResult"]⟩).2
    (⟨64, "WriteConcernFailed", "waiting timed out"⟩ : WriteConcernError) rfl

/-- C8: the `Operation` trait's default `handle_error` re-raises: it returns
exactly `Err(error)` with the error value unchanged. -/
theorem handleError_default_reraises (O : Type) (error : Error) :
    Operation.handleError O error = Except.error error := rfl

/-- C9: `append_options` succeeds unchanged on absent options, extends the
document with exactly the serialized document's pairs when the options
serialize to a document, and raises an internal error (document untouched)
when they serialize to a non-document value. -/
theorem append_options_spec (doc : Document) :
    append_options doc Option.none = .ok doc ∧
    (∀ d, append_options doc (some (Bson.document d)) = .ok (doc.extendDoc d)) ∧
    (∀ b, (∀ d, b ≠ Bson.document d) →
      append_options doc (some b) =
        .error (Error.new
          (ErrorKind.internal "options did not serialize to a Document")
          Option.none)) := by
  refine ⟨rfl, fun d => rfl, fun b hb => ?_⟩
  cases b with
  | int64 n => rfl
  | string s => rfl
  | boolean v => rfl
  | document d => exact absurd rfl (hb d)
  | array l => rfl

/-- C9 witness: options serializing to an int64 are rejected with an
internal error. -/
theorem append_options_spec_witness :
    append_options [("a", Bson.int64 1)] (some (Bson.int64 5)) =
      .error (Error.new
        (ErrorKind.internal "options did not serialize to a Document")
        Option.none) :=
  (append_options_spec [("a", Bson.int64 1)]).2.2 (Bson.int64 5)
    (fun _ h => Bson.noConfusion h)

/-- C10: the `Operation` trait's default `is_acknowledged` returns true iff
the operation's write concern is absent or acknowledged; in particular an
operation with no write concern is treated as acknowledged. -/
theorem isAcknowledged_default_spec (writeConcern : Option WriteConcern) :
    (Operation.isAcknowledged writeConcern = true ↔
      writeConcern = Option.none ∨
        ∃ wc, writeConcern = some wc ∧ wc.isAcknowledged = true) ∧
    Operation.isAcknowledged Option.none = true := by
  refine ⟨?_, rfl⟩
  cases writeConcern with
  | none => simp [Operation.isAcknowledged]
  | some wc => simp [Operation.isAcknowledged]

/-- C10 witness: a journaled write concern with `w: 0` is acknowledged,
through the characterization. -/
theorem isAcknowledged_default_spec_witness :
    Operation.isAcknowledged (some ⟨some 0, some true⟩) = true :=
  ((isAcknowledged_default_spec (some ⟨some 0, some true⟩)).1).mpr
    (Or.inr ⟨⟨some 0, some true⟩, rfl, by decide⟩)

/-- C3: every transaction-state transition not listed as legal in §3's table
raises a transaction error and leaves the session's transaction state (and
the whole session) unchanged. -/
theorem transaction_illegal_transitions (s : Session)
    (serverResult : Except Error Unit) :
    (legalStartTransaction s.state = false →
      raisesTransactionError (startTransaction s).1 = true ∧
        (startTransaction s).2 = s) ∧
    (legalCommitTransaction s.state = false →
      raisesTransactionError (commitTransaction s serverResult).1 = true ∧
        (commitTransaction s serverResult).2 = s) ∧
    (legalAbortTransaction s.state = false →
      raisesTransactionError (abortTransaction s serverResult).1 = true ∧
        (abortTransaction s serverResult).2 = s) := by
  obtain ⟨n, st⟩ := s
  cases st <;>
    simp [legalStartTransaction, legalCommitTransaction, legalAbortTransaction,
      startTransaction, commitTransaction, abortTransaction,
      raisesTransactionError, Error.isTransactionError, Error.new]

/-- C3 witness: `start_transaction` while InProgress raises a transaction
error and leaves the session unchanged. -/
theorem transaction_illegal_transitions_witness :
    raisesTransactionError
        (startTransaction ⟨5, TransactionState.inProgress⟩).1 = true ∧
      (startTransaction ⟨5, TransactionState.inProgress⟩).2 =
        ⟨5, TransactionState.inProgress⟩ :=
  (transaction_illegal_transitions ⟨5, TransactionState.inProgress⟩
    (Except.ok ())).1 rfl

/-- C5: the transaction state type has exactly the five states None,
Starting, InProgress, Committed (with a dataCommitted flag) and Aborted:
every value — in particular every session's transaction state — is one of
the five, and the five are pairwise distinct. -/
theorem transactionState_exactly_five :
    (∀ s : TransactionState,
      s = TransactionState.none ∨ s = TransactionState.starting ∨
        s = TransactionState.inProgress ∨
        (∃ b, s = TransactionState.committed b) ∨
        s = TransactionState.aborted) ∧
    (∀ session : Session,
      session.state = TransactionState.none ∨
        session.state = TransactionState.starting ∨
        session.state = TransactionState.inProgress ∨
        (∃ b, session.state = TransactionState.committed b) ∨
        session.state = TransactionState.aborted) ∧
    List.Pairwise (· ≠ ·)
      [TransactionState.none, TransactionState.starting,
        TransactionState.inProgress, TransactionState.committed false,
        TransactionState.aborted] ∧
    List.Pairwise (· ≠ ·)
      [TransactionState.none, TransactionState.starting,
        TransactionState.inProgress, TransactionState.committed true,
        TransactionState.aborted] := by
  refine ⟨fun s => ?_, fun session => ?_, by decide, by decide⟩
  · cases s <;> simp
  · cases h : session.state <;> simp

/-- The synchronous façade's blocking run of the asynchronous step agrees
with the spec's direct iteration contract. -/
theorem asyncNextFuture_run_eq_spec :
    ∀ (oracle : List (Except Error GetMoreReply)) (s : CursorState),
      (asyncNextFuture oracle s).run = specCursorNext oracle s := by
  intro oracle
  induction oracle with
  | nil =>
      intro s
      obtain ⟨buffer, id⟩ := s
      cases buffer with
      | cons d rest => rfl
      | nil =>
          by_cases h : id = 0 <;>
            simp [asyncNextFuture, specCursorNext, h, CursorStep.run]
  | cons reply rest ih =>
      intro s
      obtain ⟨buffer, id⟩ := s
      cases buffer with
      | cons d tail => rfl
      | nil =>
          cases reply with
          | error e =>
              by_cases h : id = 0 <;>
                simp [asyncNextFuture, specCursorNext, h, CursorStep.run]
          | ok r =>
              by_cases h : id = 0 <;>
                simp [asyncNextFuture, specCursorNext, h, CursorStep.run, ih]

/-- C6: for every cursor state and every stream of server replies, one call
to the synchronous iterator's `next()` returns exactly the value produced by
running the asynchronous cursor's `next()` step to completion on that state,
and that value follows the spec's iteration contract — the synchronous
façade and the asynchronous cursor are observationally equivalent. -/
theorem syncCursor_refines_asyncCursor
    (oracle : List (Except Error GetMoreReply)) (s : CursorState) :
    syncCursorNext oracle s = (asyncNextFuture oracle s).run ∧
      (asyncNextFuture oracle s).run = specCursorNext oracle s :=
  ⟨rfl, asyncNextFuture_run_eq_spec oracle s⟩

/-- Characterization of the `CursorInfo` decoder: it succeeds exactly when
the three fields decode, yielding them unchanged. -/
theorem cursorInfo_fromDoc_eq_some (d : Document) (info : CursorInfo) :
    CursorInfo.fromDoc d = some info ↔
      (d.get "id").bind decodeInt64 = some info.id ∧
      (d.get "ns").bind Namespace.fromBson = some info.ns ∧
      (d.get "firstBatch").bind decodeDocumentList = some info.firstBatch := by
  obtain ⟨i, ns, fb⟩ := info
  cases hid : (d.get "id").bind decodeInt64 <;>
    cases hns : (d.get "ns").bind Namespace.fromBson <;>
      cases hfb : (d.get "firstBatch").bind decodeDocumentList <;>
        simp [CursorInfo.fromDoc, hid, hns, hfb]

/-- Characterization of the `CursorBody` decoder: it succeeds exactly when
the reply's `cursor` field is a document whose `CursorInfo` decodes. -/
theorem cursorBody_fromDoc_eq_some (d : Document) (cb : CursorBody) :
    CursorBody.fromDoc d = some cb ↔
      ∃ cdoc, (d.get "cursor").bind decodeDocumentValue = some cdoc ∧
        CursorInfo.fromDoc cdoc = some cb.cursor := by
  obtain ⟨info0⟩ := cb
  cases hc : (d.get "cursor").bind decodeDocumentValue with
  | none => simp [CursorBody.fromDoc, hc]
  | some cdoc =>
      cases hi : CursorInfo.fromDoc cdoc with
      | none => simp [CursorBody.fromDoc, hc, hi]
      | some info => simp [CursorBody.fromDoc, hc, hi, eq_comm]

/-- C7: decoding a cursor-bearing reply succeeds exactly when the reply's
`cursor` document carries an int64 `id`, a decodable `ns` and a `firstBatch`
array of documents, and then yields exactly those three components; the
cursor driver created from them consumes the ordered first batch from the
front, and id 0 means the cursor is already exhausted. -/
theorem cursorBody_decode_spec :
    (∀ (d : Document) (cb : CursorBody),
      CursorBody.fromDoc d = some cb ↔
        ∃ cdoc, (d.get "cursor").bind decodeDocumentValue = some cdoc ∧
          (cdoc.get "id").bind decodeInt64 = some cb.cursor.id ∧
          (cdoc.get "ns").bind Namespace.fromBson = some cb.cursor.ns ∧
          (cdoc.get "firstBatch").bind decodeDocumentList =
            some cb.cursor.firstBatch) ∧
    (∀ (info : CursorInfo) (oracle : List (Except Error GetMoreReply))
        (d : Document) (rest : List Document),
      info.firstBatch = d :: rest →
        syncCursorNext oracle (CursorState.ofInfo info) =
          (some (.ok d), ⟨rest, info.id⟩)) ∧
    (∀ (info : CursorInfo) (oracle : List (Except Error GetMoreReply)),
      info.firstBatch = [] → info.id = 0 →
        syncCursorNext oracle (CursorState.ofInfo info) =
          (Option.none, ⟨[], 0⟩)) := by
  refine ⟨fun d cb => ?_, fun info oracle d rest h => ?_, fun info oracle h h0 => ?_⟩
  · rw [cursorBody_fromDoc_eq_some]
    constructor
    · rintro ⟨cdoc, hc, hinfo⟩
      exact ⟨cdoc, hc, (cursorInfo_fromDoc_eq_some cdoc cb.cursor).1 hinfo⟩
    · rintro ⟨cdoc, hc, h1, h2, h3⟩
      exact ⟨cdoc, hc, (cursorInfo_fromDoc_eq_some cdoc cb.cursor).2 ⟨h1, h2, h3⟩⟩
  · cases oracle <;>
      simp [syncCursorNext, CursorState.ofInfo, asyncNextFuture, h,
        CursorStep.run]
  · cases oracle <;>
      simp [syncCursorNext, CursorState.ofInfo, asyncNextFuture, h, h0,
        CursorStep.run]

/-- C7 witness: a concrete cursor-bearing reply decodes to its id,
namespace and first batch. -/
theorem cursorBody_decode_spec_witness :
    CursorBody.fromDoc
      [("cursor", Bson.document
        [("id", Bson.int64 42),
         ("ns", Bson.string "db.coll"),
         ("firstBatch", Bson.array [Bson.document [("x", Bson.int64 1)]])])] =
    some ⟨⟨42, ⟨"db", "coll"⟩, [[("x", Bson.int64 1)]]⟩⟩ := by
  apply (cursorBody_decode_spec.1 _ _).mpr
  exact ⟨[("id", Bson.int64 42), ("ns", Bson.string "db.coll"),
    ("firstBatch", Bson.array [Bson.document [("x", Bson.int64 1)]])],
    rfl, rfl, rfl, rfl⟩

/-- The commit retry loop starting at attempt index `i` with `budget`
further retries allowed performs at most `budget + 1` more attempts. -/
theorem commitRetryLoop_attempts_le {α : Type} (retryableErr : Error → Bool)
    (outcomes : Nat → Except Error α) :
    ∀ (budget i : Nat),
      (commitRetryLoop retryableErr outcomes budget i).2 ≤ i + budget + 1 := by
  intro budget
  induction budget with
  | zero =>
      intro i
      cases h : outcomes i <;> simp [commitRetryLoop, h]
  | succ b ih =>
      intro i
      cases h : outcomes i with
      | ok a => simp [commitRetryLoop, h]
      | error e =>
          by_cases hr : retryableErr e = true
          · have := ih (i + 1)
            simp [commitRetryLoop, h, hr]
            omega
          · simp [commitRetryLoop, h, hr]

/-- C2: the executor performs exactly one attempt when the operation's
retryability is None; at most two attempts (one automatic retry) when it is
Read or Write and the operation is not commitTransaction; and for
commitTransaction its attempts are bounded by the commit deadline's
remaining budget. -/
theorem executor_attempt_bounds {α : Type} (retryability : Retryability)
    (isCommit : Bool) (retryableErr : Error → Bool) (commitBudget : Nat)
    (outcomes : Nat → Except Error α) :
    (retryability = Retryability.none →
      (executeOperation retryability isCommit retryableErr commitBudget
        outcomes).2 = 1) ∧
    (retryability ≠ Retryability.none → isCommit = false →
      (executeOperation retryability isCommit retryableErr commitBudget
        outcomes).2 ≤ 2) ∧
    (executeOperation retryability isCommit retryableErr commitBudget
      outcomes).2 ≤ commitBudget + 2 := by
  cases h0 : outcomes 0 with
  | ok a =>
      refine ⟨fun _ => ?_, fun _ _ => ?_, ?_⟩ <;>
        simp [executeOperation, h0]
  | error e =>
      cases retryability with
      | none =>
          refine ⟨fun _ => ?_, fun hr _ => ?_, ?_⟩
          · simp [executeOperation, h0]
          · exact absurd rfl hr
          · simp [executeOperation, h0]
      | read =>
          refine ⟨fun hr => by simp at hr, fun _ hc => ?_, ?_⟩
          · subst hc
            by_cases hre : retryableErr e = true <;>
              cases h1 : outcomes 1 <;>
                simp [executeOperation, h0, h1, hre]
          · cases isCommit with
            | false =>
                by_cases hre : retryableErr e = true <;>
                  cases h1 : outcomes 1 <;>
                    simp [executeOperation, h0, h1, hre]
            | true =>
                by_cases hre : retryableErr e = true
                · have := commitRetryLoop_attempts_le retryableErr outcomes
                    commitBudget 1
                  simp [executeOperation, h0, hre]
                  omega
                · simp [executeOperation, h0, hre]
      | write =>
          refine ⟨fun hr => by simp at hr, fun _ hc => ?_, ?_⟩
          · subst hc
            by_cases hre : retryableErr e = true <;>
              cases h1 : outcomes 1 <;>
                simp [executeOperation, h0, h1, hre]
          · cases isCommit with
            | false =>
                by_cases hre : retryableErr e = true <;>
                  cases h1 : outcomes 1 <;>
                    simp [executeOperation, h0, h1, hre]
            | true =>
                by_cases hre : retryableErr e = true
                · have := commitRetryLoop_attempts_le retryableErr outcomes
                    commitBudget 1
                  simp [executeOperation, h0, hre]
                  omega
                · simp [executeOperation, h0, hre]

/-- C2 witness: an operation with retryability None performs exactly one
attempt even when every attempt fails with a retryable network error. -/
theorem executor_attempt_bounds_witness :
    (executeOperation (α := Unit) Retryability.none false (fun _ => true) 3
      (fun _ => Except.error
        (Error.new (ErrorKind.network "connection reset") Option.none))).2 = 1 :=
  (executor_attempt_bounds Retryability.none false (fun _ => true) 3
    (fun _ => Except.error
      (Error.new (ErrorKind.network "connection reset") Option.none))).1 rfl

end MongoDriver
